import Mathlib

/-!
Shallow embedding of the health-readout scoring pipeline of
src/tools/health.py (metric parsing, per-domain scorers, trend analysis,
aggregation, readout assembly), together with theorems checking the
specification's claims about it.

Machine floats are modelled as exact rationals; Python ints as ℤ / ℕ.
-/

attribute [local semireducible] Rat.mul Rat.add Rat.sub Rat.inv Rat.ofScientific

/-- Rounding to the nearest integer with ties to even, the behaviour of
Python's builtin round on the exact values arising here. -/
def round_half_even (q : ℚ) : ℤ :=
  if q - ⌊q⌋ < 1/2 then ⌊q⌋
  else if 1/2 < q - ⌊q⌋ then ⌊q⌋ + 1
  else if ⌊q⌋ % 2 = 0 then ⌊q⌋ else ⌊q⌋ + 1

/-- Arithmetic mean of a list of rationals (statistics.mean). -/
def list_mean (xs : List ℚ) : ℚ := xs.sum / xs.length

/-- Lexicographic comparison of strings by code point, as Python's binary
max on str uses; structural so that it evaluates. -/
def str_lt : List Char → List Char → Bool
  | [], [] => false
  | [], _ :: _ => true
  | _ :: _, [] => false
  | a :: as_, b :: bs =>
    if a.val < b.val then true
    else if b.val < a.val then false
    else str_lt as_ bs

/-- Python max of two strings (returns the first argument on ties). -/
def max_str (a b : String) : String := if str_lt a.toList b.toList then b else a

/-- Value of a list of decimal digit characters. -/
def digits_to_nat (ds : List Char) : ℕ :=
  ds.foldl (fun a c => 10 * a + (c.toNat - Char.toNat '0')) 0

/-- Powers of ten in ℚ, structural so that it evaluates. -/
def qpow10 : ℕ → ℚ
  | 0 => 1
  | n + 1 => 10 * qpow10 n

/-- Unsigned decimal token value: integer digits, optionally a dot and
fraction digits. -/
def dec_to_rat_core (cs : List Char) : ℚ :=
  let ip := cs.takeWhile Char.isDigit
  match cs.drop ip.length with
  | '.' :: fs => (digits_to_nat ip : ℚ) + (digits_to_nat fs : ℚ) / qpow10 fs.length
  | _ => (digits_to_nat ip : ℚ)

/-- Value denoted by an optionally signed decimal-number token, such as the
text matched by the pattern in _as_float; exact counterpart of float(...). -/
def dec_to_rat : List Char → ℚ
  | '-' :: cs => - dec_to_rat_core cs
  | cs => dec_to_rat_core cs

/-- Match of the digits part of the number regex of _as_float anchored at
the start of the list: one or more digits (greedy), then optionally a dot
followed by one or more digits (greedy). Returns the matched characters. -/
def unsigned_number_at (cs : List Char) : Option (List Char) :=
  let ds := cs.takeWhile Char.isDigit
  if ds.isEmpty then none
  else
    match cs.drop ds.length with
    | '.' :: rest =>
      let fs := rest.takeWhile Char.isDigit
      if fs.isEmpty then some ds else some (ds ++ '.' :: fs)
    | _ => some ds

/-- Match of the signed number pattern anchored at the start of the list:
an optional minus sign then the unsigned pattern. -/
def number_at (cs : List Char) : Option (List Char) :=
  match cs with
  | '-' :: rest => (unsigned_number_at rest).map (fun m => '-' :: m)
  | rest => unsigned_number_at rest

/-- Leftmost match of -?\d+(?:\.\d+)? in the list (re.search semantics). -/
def search_number : List Char → Option (List Char)
  | [] => none
  | c :: rest =>
    match number_at (c :: rest) with
    | some m => some m
    | none => search_number rest

/-- Model of _as_float (health.py lines 63-79) on a text value: strip
surrounding whitespace, return none on empty text, drop thousands
separators, then extract the first signed decimal number by pattern match;
no match yields none, never an error. -/
def as_float (s : String) : Option ℚ :=
  let text := ((s.toList.dropWhile Char.isWhitespace).reverse.dropWhile
    Char.isWhitespace).reverse
  if text.isEmpty then none
  else (search_number (text.filter (fun c => c ≠ ','))).map dec_to_rat

/-- Match of the blood-pressure regex with the first group fixed to
exactly n digits: n digits, optional whitespace, a slash, optional
whitespace, then two or three more digits (greedy). -/
def bp_at_width (n : ℕ) (cs : List Char) : Option (ℚ × ℚ) :=
  let g1 := cs.take n
  if g1.length = n && g1.all Char.isDigit then
    match (cs.drop n).dropWhile Char.isWhitespace with
    | '/' :: rest =>
      let ds := (rest.dropWhile Char.isWhitespace).takeWhile Char.isDigit
      if 2 ≤ ds.length then
        some ((digits_to_nat g1 : ℚ), (digits_to_nat (ds.take 3) : ℚ))
      else none
    | _ => none
  else none

/-- Match of the blood-pressure regex anchored at the start: the first
group greedily takes three digits, backtracking to two. -/
def bp_at (cs : List Char) : Option (ℚ × ℚ) :=
  match bp_at_width 3 cs with
  | some r => some r
  | none => bp_at_width 2 cs

/-- Leftmost match of the blood-pressure regex in the list. -/
def search_bp : List Char → Option (ℚ × ℚ)
  | [] => none
  | c :: rest =>
    match bp_at (c :: rest) with
    | some r => some r
    | none => search_bp rest

/-- Model of _parse_bp (health.py lines 82-89): extract systolic and
diastolic as two 2-3 digit integers separated by a slash with optional
whitespace; no match yields (none, none). -/
def parse_bp (s : String) : Option ℚ × Option ℚ :=
  match search_bp s.toList with
  | some (a, b) => (some a, some b)
  | none => (none, none)

/-- Model of _status_from_score (health.py lines 92-97). -/
def status_from_score (score : ℤ) : String :=
  if score ≥ 85 then "good"
  else if score ≥ 65 then "needs-attention"
  else "high-risk"

/-- Model of _trend_direction (health.py lines 100-108). -/
def trend_direction (latest previous : Option ℚ) (stable_band : ℚ) :
    String × Option ℚ :=
  match latest, previous with
  | some l, some p =>
    let delta := l - p
    if |delta| ≤ stable_band then ("stable", some delta)
    else if delta > 0 then ("up", some delta) else ("down", some delta)
  | _, _ => ("no-trend", none)

/-- Zero-padded decimal rendering of n to exactly w digits. -/
def pad_digits (n : ℕ) (w : ℕ) : String :=
  let s := toString n
  List.asString (List.replicate (w - s.length) '0') ++ s

/-- Rendering of q with d digits after the dot, the behaviour of Python
percent-f formatting at the exact values arising here (d > 0). -/
def fmt_fixed (q : ℚ) (d : ℕ) : String :=
  let scaled := round_half_even (q * ((10 ^ d : ℕ) : ℚ))
  (if q < 0 then "-" else "") ++ toString (scaled.natAbs / 10 ^ d) ++ "." ++
    pad_digits (scaled.natAbs % 10 ^ d) d

/-- Model of _fmt_number (health.py lines 111-116): none stays none;
decimals = 0 renders str(int(round(value))), otherwise fixed-point. -/
def fmt_number (value : Option ℚ) (decimals : ℕ) : Option String :=
  value.map fun q =>
    if decimals = 0 then toString (round_half_even q) else fmt_fixed q decimals

/-- Rendering of q with an explicit leading sign and d digits after the
dot, the behaviour of Python plus-dot-f formatting (also for d = 0). -/
def fmt_signed (q : ℚ) (d : ℕ) : String :=
  let scaled := round_half_even (q * ((10 ^ d : ℕ) : ℚ))
  (if q < 0 then "-" else "+") ++
    (if d = 0 then toString scaled.natAbs
     else toString (scaled.natAbs / 10 ^ d) ++ "." ++
       pad_digits (scaled.natAbs % 10 ^ d) d)

/-- Model of _score_bp (health.py lines 442-457). -/
def score_bp (systolic diastolic : Option ℚ) : ℤ × String × String :=
  match systolic, diastolic with
  | some s, some d =>
    if s ≥ 180 ∨ d ≥ 120 then (25, "high-risk", "Severely elevated blood pressure.")
    else if s < 80 ∨ d < 50 then (35, "high-risk", "Blood pressure is in a low range.")
    else if s ≥ 140 ∨ d ≥ 90 then (55, "high-risk", "Blood pressure is above stage-2 range.")
    else if s ≥ 130 ∨ d ≥ 80 then (70, "needs-attention", "Blood pressure is in stage-1 range.")
    else if s ≥ 120 ∧ d < 80 then (82, "needs-attention", "Systolic pressure is mildly elevated.")
    else if s < 90 ∨ d < 60 then (65, "needs-attention", "Blood pressure is mildly low.")
    else (94, "good", "Blood pressure is in the target range.")
  | _, _ => (50, "unknown", "No recent blood pressure data.")

/-- Model of _score_bmi (health.py lines 460-475). -/
def score_bmi (bmi : Option ℚ) : ℤ × String × String :=
  match bmi with
  | none => (50, "unknown", "No recent BMI data.")
  | some b =>
    if b < 16 then (40, "high-risk", "BMI indicates severe underweight.")
    else if b < 18.5 then (64, "needs-attention", "BMI is below the healthy range.")
    else if b < 25 then (94, "good", "BMI is in the healthy range.")
    else if b < 30 then (78, "needs-attention", "BMI is in the overweight range.")
    else if b < 35 then (60, "high-risk", "BMI is in obesity class I.")
    else if b < 40 then (50, "high-risk", "BMI is in obesity class II.")
    else (40, "high-risk", "BMI is in obesity class III.")

/-- Model of _score_glucose (health.py lines 478-496); the last component
records which basis was used. -/
def score_glucose (a1c glucose : Option ℚ) : ℤ × String × String × String :=
  match a1c with
  | some a =>
    if a < 5.7 then (94, "good", "A1c is in non-diabetic range.", "a1c")
    else if a < 6.5 then (78, "needs-attention", "A1c is in prediabetes range.", "a1c")
    else if a < 8.0 then (60, "high-risk", "A1c is above diabetic target range.", "a1c")
    else (45, "high-risk", "A1c is markedly elevated.", "a1c")
  | none =>
    match glucose with
    | none => (50, "unknown", "No recent glucose markers.", "glucose")
    | some g =>
      if g < 70 then (40, "high-risk", "Glucose is in hypoglycemic range.", "glucose")
      else if g ≤ 140 then (88, "good", "Glucose is in a reasonable range.", "glucose")
      else if g ≤ 199 then (70, "needs-attention", "Glucose is elevated.", "glucose")
      else (48, "high-risk", "Glucose is markedly elevated.", "glucose")

/-- Model of _score_kidney (health.py lines 499-521). -/
def score_kidney (creatinine bun : Option ℚ) : ℤ × String × String :=
  match creatinine with
  | none => (50, "unknown", "No recent kidney markers.")
  | some c =>
    let base : ℤ × String × String :=
      if c ≤ 1.3 then (90, "good", "Creatinine is within the expected range.")
      else if c ≤ 2.0 then (72, "needs-attention", "Creatinine is mildly elevated.")
      else (50, "high-risk", "Creatinine is significantly elevated.")
    match bun with
    | some b =>
      if b > 35 then
        (max 35 (base.1 - 8),
         if base.2.1 = "good" then "needs-attention" else base.2.1,
         if base.2.1 = "good" then "Creatinine is normal but BUN is elevated." else base.2.2)
      else base
    | none => base

/-- Model of _score_spo2 (health.py lines 524-531). -/
def score_spo2 (spo2 : Option ℚ) : ℤ × String × String :=
  match spo2 with
  | none => (50, "unknown", "No recent oxygen saturation values.")
  | some s =>
    if s ≥ 95 then (92, "good", "Oxygen saturation is in the target range.")
    else if s ≥ 90 then (70, "needs-attention", "Oxygen saturation is mildly low.")
    else (45, "high-risk", "Oxygen saturation is low.")

/-- Hematology sub-score components (health.py lines 537-563): each present
value is classified as a (name, sub-score, detail) triple. -/
def hematology_components (hemoglobin wbc platelets : Option ℚ) :
    List (String × ℤ × String) :=
  (match hemoglobin with
   | none => []
   | some h =>
     if h < 10 then [("Hemoglobin", 45, "low")]
     else if h < 12 then [("Hemoglobin", 70, "mildly low")]
     else if h > 18 then [("Hemoglobin", 70, "high")]
     else [("Hemoglobin", 90, "normal")]) ++
  (match wbc with
   | none => []
   | some w =>
     if w < 3 ∨ w > 15 then [("WBC", 45, "abnormal")]
     else if w < 4 ∨ w > 11 then [("WBC", 70, "outside reference")]
     else [("WBC", 90, "normal")]) ++
  (match platelets with
   | none => []
   | some p =>
     if p < 100 ∨ p > 600 then [("Platelets", 45, "abnormal")]
     else if p < 150 ∨ p > 450 then [("Platelets", 70, "outside reference")]
     else [("Platelets", 90, "normal")])

/-- Model of _hematology_component_scores (health.py lines 534-585):
rounded mean of the available sub-scores, status from the sub-score
minima, insight listing the abnormal components. -/
def hematology_component_scores (hemoglobin wbc platelets : Option ℚ) :
    ℤ × String × String :=
  let components := hematology_components hemoglobin wbc platelets
  if components.isEmpty then (50, "unknown", "No recent hematology markers.")
  else
    let score := round_half_even (list_mean (components.map fun c => (c.2.1 : ℚ)))
    let status :=
      if components.any (fun c => c.2.1 ≤ 50) then "high-risk"
      else if components.any (fun c => c.2.1 < 85) then "needs-attention"
      else "good"
    let abnormal := components.filterMap fun c =>
      if c.2.1 < 85 ∧ c.2.2 ≠ "normal" then some (c.1 ++ " " ++ c.2.2) else none
    let insight :=
      if abnormal.isEmpty then "Hematology markers are in expected range."
      else String.intercalate " / " abnormal
    (score, status, insight)

/-- One outpatient (OMR) measurement row as _build_readout consumes it:
a free-text result value and a chart date. -/
structure OmrRow where
  result_value : String
  chartdate : String
deriving DecidableEq, Repr

/-- One laboratory row as _build_readout consumes it: the numeric value
(non-null by the query in _query_lab_history) and a chart time. -/
structure LabRow where
  valuenum : ℚ
  charttime : String
deriving DecidableEq, Repr

/-- One ICU bedside row as _build_readout consumes it: the numeric value
(non-null by the query in _query_vital_history) and a chart time. -/
structure VitalRow where
  valuenum : ℚ
  charttime : String
deriving DecidableEq, Repr

/-- Outpatient metric history: newest-first rows per OMR result name, the
fixed keys of _query_omr_history (OMR_RESULT_NAMES). -/
structure OmrHistory where
  blood_pressure : List OmrRow
  bmi : List OmrRow
  weight : List OmrRow
  height : List OmrRow
deriving DecidableEq, Repr

/-- Lab metric history: newest-first rows per canonical lab metric, the
fixed keys of _query_lab_history (LAB_METRIC_LABELS). -/
structure LabsHistory where
  creatinine : List LabRow
  bun : List LabRow
  glucose : List LabRow
  a1c : List LabRow
  hemoglobin : List LabRow
  wbc : List LabRow
  platelets : List LabRow
  sodium : List LabRow
  potassium : List LabRow
deriving DecidableEq, Repr

/-- Bedside vital history: newest-first rows per canonical vital metric,
the fixed keys of _query_vital_history (VITAL_METRIC_ITEMIDS). -/
structure VitalsHistory where
  heart_rate : List VitalRow
  systolic_bp : List VitalRow
  diastolic_bp : List VitalRow
  resp_rate : List VitalRow
  spo2 : List VitalRow
deriving DecidableEq, Repr

/-- One domain score card, the dict built per domain in _build_readout;
secondary_value and secondary_trend only occur on the body-composition
card and are none elsewhere (absent keys). -/
structure Card where
  id : String
  title : String
  score : ℤ
  status : String
  value : String
  unit : String
  recorded_at : Option String
  trend : String
  trend_detail : Option String
  insight : String
  source : String
  secondary_value : Option String := none
  secondary_trend : Option String := none
deriving DecidableEq, Repr

/-- The readout result, the dict returned by _build_readout; the
availability flags are kept as the literal key-value pairs of the
available_data sub-dict so that the key names are part of the model. -/
structure Readout where
  subject_id : ℤ
  overall_score : ℤ
  overall_status : String
  cards : List Card
  insights : List String
  available_data : List (String × Bool)
deriving DecidableEq, Repr

/-- Keys of the top-level dict literal returned by _build_readout
(health.py lines 888-899), in order. -/
def readout_field_names : List String :=
  ["subject_id", "overall_score", "overall_status", "cards", "insights",
   "available_data"]

/-- Intermediate state of the blood-pressure block of _build_readout
(health.py lines 655-674) after the ICU-vitals fallback. -/
structure BpState where
  sys : Option ℚ
  dia : Option ℚ
  prev_sys : Option ℚ
  prev_dia : Option ℚ
  recorded_at : Option String
  source : String
deriving DecidableEq, Repr

/-- Blood-pressure inputs: parse the latest and previous OMR blood-pressure
text; when either component is missing, fall back to the latest ICU
systolic and diastolic rows if both exist (health.py lines 655-674). -/
def bp_state (omr : OmrHistory) (vitals : VitalsHistory) : BpState :=
  let bp_latest := omr.blood_pressure.head?
  let bp_prev := omr.blood_pressure[1]?
  let parsed := match bp_latest with
    | some row => parse_bp row.result_value
    | none => (none, none)
  let parsed_prev := match bp_prev with
    | some row => parse_bp row.result_value
    | none => (none, none)
  let base : BpState :=
    { sys := parsed.1, dia := parsed.2, prev_sys := parsed_prev.1,
      prev_dia := parsed_prev.2, recorded_at := bp_latest.map (·.chartdate),
      source := "OMR" }
  if parsed.1 = none ∨ parsed.2 = none then
    match vitals.systolic_bp.head?, vitals.diastolic_bp.head? with
    | some vs, some vd =>
      { sys := some vs.valuenum, dia := some vd.valuenum,
        prev_sys := (vitals.systolic_bp[1]?).map (·.valuenum),
        prev_dia := (vitals.diastolic_bp[1]?).map (·.valuenum),
        recorded_at := some (max_str vs.charttime vd.charttime),
        source := "ICU vitals" }
    | _, _ => base
  else base

/-- Blood-pressure card of _build_readout (health.py lines 655-712). -/
def bp_card (omr : OmrHistory) (vitals : VitalsHistory) : Card :=
  let st := bp_state omr vitals
  let scored := score_bp st.sys st.dia
  let value_label : Option String :=
    match st.sys, st.dia with
    | some s, some d =>
      some (toString (round_half_even s) ++ "/" ++ toString (round_half_even d))
    | _, _ => none
  let tr : String × Option String :=
    match st.sys, st.dia, st.prev_sys, st.prev_dia with
    | some s, some d, some ps, some pd =>
      let sys_t := trend_direction (some s) (some ps) 3.0
      let dia_t := trend_direction (some d) (some pd) 3.0
      if sys_t.1 = "stable" ∧ dia_t.1 = "stable" then
        ("stable", some "stable vs prior reading")
      else if sys_t.1 = "up" ∨ dia_t.1 = "up" then
        ("up", some ("+" ++ toString (round_half_even (sys_t.2.getD 0)).natAbs ++
          "/+" ++ toString (round_half_even (dia_t.2.getD 0)).natAbs ++ " vs prior"))
      else
        ("down", some ("-" ++ toString (round_half_even (sys_t.2.getD 0)).natAbs ++
          "/-" ++ toString (round_half_even (dia_t.2.getD 0)).natAbs ++ " vs prior"))
    | _, _, _, _ => ("no-trend", none)
  { id := "blood_pressure", title := "Blood Pressure", score := scored.1,
    status := scored.2.1, value := value_label.getD "No data", unit := "mmHg",
    recorded_at := st.recorded_at, trend := tr.1, trend_detail := tr.2,
    insight := scored.2.2, source := st.source }

/-- Latest direct BMI value of the OMR history (health.py line 720). -/
def bmi_direct (omr : OmrHistory) : Option ℚ :=
  omr.bmi.head?.bind fun r => as_float r.result_value

/-- Latest weight value in pounds of the OMR history (health.py line 721). -/
def weight_val (omr : OmrHistory) : Option ℚ :=
  omr.weight.head?.bind fun r => as_float r.result_value

/-- Latest height value in inches of the OMR history (health.py line 722). -/
def height_val (omr : OmrHistory) : Option ℚ :=
  omr.height.head?.bind fun r => as_float r.result_value

/-- BMI used for scoring (health.py lines 720-724): the direct value when
present, otherwise derived as weight * 703 / height^2, but only when the
weight is present and the height is present and strictly positive (the
Python guard also rejects a zero height by truthiness). -/
def bmi_value (omr : OmrHistory) : Option ℚ :=
  match bmi_direct omr, weight_val omr, height_val omr with
  | none, some w, some h => if 0 < h then some (w * 703.0 / (h * h)) else none
  | b, _, _ => b

/-- Body-composition card of _build_readout (health.py lines 714-760). -/
def body_card (omr : OmrHistory) : Card :=
  let bmi_latest := omr.bmi.head?
  let weight_latest := omr.weight.head?
  let weight_prev := omr.weight[1]?
  let bmi_val := bmi_value omr
  let prev_bmi := (omr.bmi[1]?).bind fun r => as_float r.result_value
  let scored := score_bmi bmi_val
  let trended := trend_direction bmi_val prev_bmi 0.3
  { id := "body_composition", title := "Body Composition", score := scored.1,
    status := scored.2.1, value := (fmt_number bmi_val 1).getD "No data",
    unit := "kg/m2",
    recorded_at :=
      match bmi_latest with
      | some r => some r.chartdate
      | none => weight_latest.map (·.chartdate),
    trend := trended.1,
    trend_detail := trended.2.map (fun d => fmt_signed d 1 ++ " BMI vs prior"),
    insight := scored.2.2, source := "OMR",
    secondary_value := (weight_val omr).map (fun w => fmt_fixed w 1 ++ " lbs"),
    secondary_trend :=
      match weight_latest, weight_prev with
      | some lrow, some prow =>
        match as_float lrow.result_value, as_float prow.result_value with
        | some wl, some wp => some (fmt_signed (wl - wp) 1 ++ " lbs")
        | _, _ => none
      | _, _ => none }

/-- Glucose-control card of _build_readout (health.py lines 762-792). -/
def glucose_card (labs : LabsHistory) : Card :=
  let glucose_latest := labs.glucose.head?
  let a1c_latest := labs.a1c.head?
  let glucose_val := glucose_latest.map (·.valuenum)
  let a1c_val := a1c_latest.map (·.valuenum)
  let scored := score_glucose a1c_val glucose_val
  let basis := scored.2.2.2
  { id := "glucose_control", title := "Glucose Control", score := scored.1,
    status := scored.2.1,
    value := (if basis = "a1c" then fmt_number a1c_val 1
      else fmt_number glucose_val 0).getD "No data",
    unit := if basis = "a1c" then "%" else "mg/dL",
    recorded_at :=
      if basis = "a1c" ∧ a1c_latest.isSome then a1c_latest.map (·.charttime)
      else glucose_latest.map (·.charttime),
    trend := "no-trend",
    trend_detail :=
      some (if basis = "a1c" then "using A1c" else "using latest serum glucose"),
    insight := scored.2.2.1, source := "Labs" }

/-- Kidney-function card of _build_readout (health.py lines 794-818). -/
def kidney_card (labs : LabsHistory) : Card :=
  let creatinine_latest := labs.creatinine.head?
  let bun_latest := labs.bun.head?
  let creatinine_val := creatinine_latest.map (·.valuenum)
  let bun_val := bun_latest.map (·.valuenum)
  let scored := score_kidney creatinine_val bun_val
  { id := "kidney_function", title := "Kidney Function", score := scored.1,
    status := scored.2.1, value := (fmt_number creatinine_val 2).getD "No data",
    unit := "mg/dL", recorded_at := creatinine_latest.map (·.charttime),
    trend := "no-trend",
    trend_detail := bun_val.map (fun b =>
      "BUN " ++ toString (round_half_even b) ++ " mg/dL"),
    insight := scored.2.2, source := "Labs" }

/-- Oxygenation card of _build_readout (health.py lines 820-845). -/
def spo2_card (vitals : VitalsHistory) : Card :=
  let spo2_latest := vitals.spo2.head?
  let spo2_val := spo2_latest.map (·.valuenum)
  let spo2_prev := (vitals.spo2[1]?).map (·.valuenum)
  let scored := score_spo2 spo2_val
  let trended := trend_direction spo2_val spo2_prev 1.0
  { id := "oxygenation", title := "Oxygenation", score := scored.1,
    status := scored.2.1, value := (fmt_number spo2_val 0).getD "No data",
    unit := "%", recorded_at := spo2_latest.map (·.charttime),
    trend := trended.1,
    trend_detail := trended.2.map (fun d => fmt_signed d 0 ++ " pts vs prior"),
    insight := scored.2.2, source := "ICU vitals" }

/-- Hematology card of _build_readout (health.py lines 847-877). -/
def heme_card (labs : LabsHistory) : Card :=
  let hemoglobin := labs.hemoglobin.head?.map (·.valuenum)
  let wbc := labs.wbc.head?.map (·.valuenum)
  let platelets := labs.platelets.head?.map (·.valuenum)
  let scored := hematology_component_scores hemoglobin wbc platelets
  let recorded := max_str (max_str
    ((labs.hemoglobin.head?.map (·.charttime)).getD "")
    ((labs.wbc.head?.map (·.charttime)).getD ""))
    ((labs.platelets.head?.map (·.charttime)).getD "")
  { id := "hematology", title := "Hematology", score := scored.1,
    status := scored.2.1,
    value := "Hgb " ++ ((fmt_number hemoglobin 1).getD "NA") ++ " / WBC " ++
      ((fmt_number wbc 1).getD "NA") ++ " / Plt " ++
      ((fmt_number platelets 0).getD "NA"),
    unit := "",
    recorded_at := if recorded = "" then none else some recorded,
    trend := "no-trend", trend_detail := none,
    insight := scored.2.2, source := "Labs" }

/-- Stable insertion of a card into a score-sorted list: the new card goes
after every already-placed card with a strictly smaller score and before
the first card with an equal or larger score; under a fold from the right
(which inserts earlier-listed cards last) this keeps the original relative
order of equal-scored cards. -/
def insert_by_score (c : Card) : List Card → List Card
  | [] => [c]
  | d :: ds => if d.score < c.score then d :: insert_by_score c ds else c :: d :: ds

/-- Stable ascending sort by score, the behaviour of Python list.sort with
a score key (health.py line 885). -/
def stable_sort_by_score (l : List Card) : List Card :=
  l.foldr insert_by_score []

/-- True when any metric of the OMR history has at least one row
(any over omr.values in health.py line 895). -/
def omr_has_any (omr : OmrHistory) : Bool :=
  !omr.blood_pressure.isEmpty || !omr.bmi.isEmpty || !omr.weight.isEmpty ||
    !omr.height.isEmpty

/-- True when any metric of the lab history has at least one row
(any over labs.values in health.py line 896). -/
def labs_has_any (labs : LabsHistory) : Bool :=
  !labs.creatinine.isEmpty || !labs.bun.isEmpty || !labs.glucose.isEmpty ||
    !labs.a1c.isEmpty || !labs.hemoglobin.isEmpty || !labs.wbc.isEmpty ||
    !labs.platelets.isEmpty || !labs.sodium.isEmpty || !labs.potassium.isEmpty

/-- True when any metric of the vital history has at least one row
(any over vitals.values in health.py line 897). -/
def vitals_has_any (vitals : VitalsHistory) : Bool :=
  !vitals.heart_rate.isEmpty || !vitals.systolic_bp.isEmpty ||
    !vitals.diastolic_bp.isEmpty || !vitals.resp_rate.isEmpty ||
    !vitals.spo2.isEmpty

/-- Model of _build_readout (health.py lines 647-899): build the six domain
cards in fixed order, aggregate the overall score and status, derive the
ranked concern list, and package the availability flags. -/
def build_readout (subject_id : ℤ) (omr : OmrHistory) (labs : LabsHistory)
    (vitals : VitalsHistory) : Readout :=
  let cards : List Card :=
    [bp_card omr vitals, body_card omr, glucose_card labs, kidney_card labs,
     spo2_card vitals, heme_card labs]
  let overall_score : ℤ :=
    if cards.isEmpty then 50
    else round_half_even (list_mean (cards.map fun c => (c.score : ℚ)))
  let overall_status := status_from_score overall_score
  let concern_cards := cards.filter fun c =>
    c.status = "needs-attention" ∨ c.status = "high-risk"
  let sorted_concerns := stable_sort_by_score concern_cards
  let insights := (sorted_concerns.take 4).filterMap fun c =>
    if c.insight = "" then none else some c.insight
  { subject_id := subject_id, overall_score := overall_score,
    overall_status := overall_status, cards := cards, insights := insights,
    available_data :=
      [("has_omr", omr_has_any omr), ("has_labs", labs_has_any labs),
       ("has_icu_vitals", vitals_has_any vitals)] }

/-- C2 counterexample: at the literal boundary input systolic 120 /
diastolic 80 the blood-pressure scorer does not return score 94 with
status good; the stage-1 branch (diastolic >= 80) fires first. -/
theorem bp_120_80_not_good :
    ¬((score_bp (some 120) (some 80)).1 = 94 ∧
      (score_bp (some 120) (some 80)).2.1 = "good") := by
  decide

/-- C2 (amended): the blood-pressure scorer, applied to the literal
boundary inputs, returns: 120/80 -> score 70 with status needs-attention
(the stage-1 branch, since diastolic 80 >= 80); 190/130 -> score 25 with
status high-risk; 135/85 -> score 70 with status needs-attention. -/
theorem bp_boundary_scores :
    score_bp (some 120) (some 80) =
      (70, "needs-attention", "Blood pressure is in stage-1 range.") ∧
    score_bp (some 190) (some 130) =
      (25, "high-risk", "Severely elevated blood pressure.") ∧
    score_bp (some 135) (some 85) =
      (70, "needs-attention", "Blood pressure is in stage-1 range.") := by
  decide

/-- C9: the trend analyzer returns no-trend with a null delta when either
value is absent; otherwise it returns delta = latest - previous, with
direction stable when the absolute delta is within the stability band, up
when the delta exceeds the band, and down when it is below the negated
band (the band being nonnegative, as every caller's fixed band is); in
particular with band 3.0, 122 vs 120 is stable and 126 vs 120 is up with
delta 6. -/
theorem trend_direction_spec :
    (∀ (p : Option ℚ) (b : ℚ), trend_direction none p b = ("no-trend", none)) ∧
    (∀ (l : Option ℚ) (b : ℚ), trend_direction l none b = ("no-trend", none)) ∧
    (∀ (l p b : ℚ), |l - p| ≤ b →
      trend_direction (some l) (some p) b = ("stable", some (l - p))) ∧
    (∀ (l p b : ℚ), 0 ≤ b → b < l - p →
      trend_direction (some l) (some p) b = ("up", some (l - p))) ∧
    (∀ (l p b : ℚ), 0 ≤ b → l - p < -b →
      trend_direction (some l) (some p) b = ("down", some (l - p))) ∧
    trend_direction (some 122) (some 120) 3.0 = ("stable", some 2) ∧
    trend_direction (some 126) (some 120) 3.0 = ("up", some 6) := by
  refine ⟨fun p b => ?_, fun l b => ?_, fun l p b h => ?_,
    fun l p b hb h => ?_, fun l p b hb h => ?_, by decide, by decide⟩
  · rfl
  · cases l <;> rfl
  · simp only [trend_direction]
    rw [if_pos h]
  · have habs : ¬(|l - p| ≤ b) := by
      rw [abs_le]; intro ⟨_, h2⟩; exact absurd h (not_lt.2 h2)
    simp only [trend_direction]
    rw [if_neg habs, if_pos (by linarith : l - p > 0)]
  · have habs : ¬(|l - p| ≤ b) := by
      rw [abs_le]; intro ⟨h1, _⟩; exact absurd h (not_lt.2 (by linarith))
    simp only [trend_direction]
    rw [if_neg habs, if_neg (by push_neg; linarith : ¬(l - p > 0))]

/-- Witness for C9 at concrete inputs. -/
theorem trend_direction_spec_witness :
    trend_direction (some 130) (some 120) 3.0 = ("up", some 10) ∧
    trend_direction (some 110) (some 120) 3.0 = ("down", some (-10)) ∧
    trend_direction (some 121) (some 120) 3.0 = ("stable", some 1) :=
  ⟨trend_direction_spec.2.2.2.1 130 120 3.0 (by norm_num) (by norm_num),
   trend_direction_spec.2.2.2.2.1 110 120 3.0 (by norm_num) (by norm_num),
   trend_direction_spec.2.2.1 121 120 3.0 (by rw [abs_le]; norm_num)⟩

/-- C7: the glucose scorer prefers A1c: whenever an A1c value is present
the basis is a1c and the glucose argument does not affect the result,
scored by the A1c bands; the glucose bands apply only when A1c is absent;
when both are absent the result is score 50, status unknown. -/
theorem glucose_scorer_spec :
    (∀ (a : ℚ) (g : Option ℚ),
      score_glucose (some a) g = score_glucose (some a) none ∧
      (score_glucose (some a) g).2.2.2 = "a1c") ∧
    (∀ (a : ℚ) (g : Option ℚ), a < 5.7 →
      score_glucose (some a) g = (94, "good", "A1c is in non-diabetic range.", "a1c")) ∧
    (∀ (a : ℚ) (g : Option ℚ), 5.7 ≤ a → a < 6.5 →
      score_glucose (some a) g = (78, "needs-attention", "A1c is in prediabetes range.", "a1c")) ∧
    (∀ (a : ℚ) (g : Option ℚ), 6.5 ≤ a → a < 8.0 →
      score_glucose (some a) g = (60, "high-risk", "A1c is above diabetic target range.", "a1c")) ∧
    (∀ (a : ℚ) (g : Option ℚ), 8.0 ≤ a →
      score_glucose (some a) g = (45, "high-risk", "A1c is markedly elevated.", "a1c")) ∧
    (∀ g : ℚ, g < 70 →
      score_glucose none (some g) = (40, "high-risk", "Glucose is in hypoglycemic range.", "glucose")) ∧
    (∀ g : ℚ, 70 ≤ g → g ≤ 140 →
      score_glucose none (some g) = (88, "good", "Glucose is in a reasonable range.", "glucose")) ∧
    (∀ g : ℚ, 140 < g → g ≤ 199 →
      score_glucose none (some g) = (70, "needs-attention", "Glucose is elevated.", "glucose")) ∧
    (∀ g : ℚ, 199 < g →
      score_glucose none (some g) = (48, "high-risk", "Glucose is markedly elevated.", "glucose")) ∧
    (score_glucose none none).1 = 50 ∧ (score_glucose none none).2.1 = "unknown" := by
  refine ⟨fun a g => ⟨rfl, ?_⟩, fun a g h => ?_, fun a g h1 h2 => ?_,
    fun a g h1 h2 => ?_, fun a g h => ?_, fun g h => ?_, fun g h1 h2 => ?_,
    fun g h1 h2 => ?_, fun g h => ?_, rfl, rfl⟩
  · simp only [score_glucose]
    split_ifs <;> rfl
  · simp only [score_glucose]
    rw [if_pos h]
  · simp only [score_glucose]
    rw [if_neg (not_lt.2 h1), if_pos h2]
  · simp only [score_glucose]
    rw [if_neg (not_lt.2 h1), if_neg (not_lt.2 (by linarith)), if_pos h2]
  · simp only [score_glucose]
    rw [if_neg (not_lt.2 (by linarith)), if_neg (not_lt.2 (by linarith)),
      if_neg (not_lt.2 h)]
  · simp only [score_glucose]
    rw [if_pos h]
  · simp only [score_glucose]
    rw [if_neg (not_lt.2 h1), if_pos h2]
  · simp only [score_glucose]
    rw [if_neg (not_lt.2 (by linarith)), if_neg (not_le.2 h1), if_pos h2]
  · simp only [score_glucose]
    rw [if_neg (not_lt.2 (by linarith)), if_neg (not_le.2 (by linarith)),
      if_neg (not_le.2 h)]

/-- Witness for C7 at concrete inputs: with both A1c and glucose present
the glucose value is ignored and the basis is a1c. -/
theorem glucose_scorer_spec_witness :
    (score_glucose (some 6.0) (some 250) = score_glucose (some 6.0) none ∧
      (score_glucose (some 6.0) (some 250)).2.2.2 = "a1c") ∧
    score_glucose (some 6.0) (some 250) =
      (78, "needs-attention", "A1c is in prediabetes range.", "a1c") ∧
    score_glucose none (some 100) =
      (88, "good", "Glucose is in a reasonable range.", "glucose") :=
  ⟨glucose_scorer_spec.1 6.0 (some 250),
   glucose_scorer_spec.2.2.1 6.0 (some 250) (by norm_num) (by norm_num),
   glucose_scorer_spec.2.2.2.2.2.2.1 100 (by norm_num) (by norm_num)⟩

/-- C8: the kidney scorer maps creatinine to 90 good / 72 needs-attention
/ 50 high-risk by the 1.3 and 2.0 boundaries; a BUN above 35 subtracts 8
(the results staying above the floor of 35) and demotes a good status to
needs-attention; an absent creatinine yields 50 unknown regardless of BUN;
and creatinine 1.2 with BUN 40 yields 82 needs-attention. -/
theorem kidney_scorer_spec :
    (∀ b : Option ℚ, score_kidney none b = (50, "unknown", "No recent kidney markers.")) ∧
    (∀ (c : ℚ) (b : Option ℚ), c ≤ 1.3 → (∀ bv, b = some bv → bv ≤ 35) →
      score_kidney (some c) b = (90, "good", "Creatinine is within the expected range.")) ∧
    (∀ (c bv : ℚ), c ≤ 1.3 → 35 < bv →
      score_kidney (some c) (some bv) =
        (82, "needs-attention", "Creatinine is normal but BUN is elevated.")) ∧
    (∀ (c : ℚ) (b : Option ℚ), 1.3 < c → c ≤ 2.0 → (∀ bv, b = some bv → bv ≤ 35) →
      score_kidney (some c) b = (72, "needs-attention", "Creatinine is mildly elevated.")) ∧
    (∀ (c bv : ℚ), 1.3 < c → c ≤ 2.0 → 35 < bv →
      score_kidney (some c) (some bv) =
        (64, "needs-attention", "Creatinine is mildly elevated.")) ∧
    (∀ (c : ℚ) (b : Option ℚ), 2.0 < c → (∀ bv, b = some bv → bv ≤ 35) →
      score_kidney (some c) b = (50, "high-risk", "Creatinine is significantly elevated.")) ∧
    (∀ (c bv : ℚ), 2.0 < c → 35 < bv →
      score_kidney (some c) (some bv) =
        (42, "high-risk", "Creatinine is significantly elevated.")) ∧
    score_kidney (some 1.2) (some 40) =
      (82, "needs-attention", "Creatinine is normal but BUN is elevated.") := by
  refine ⟨fun b => rfl, fun c b h1 h2 => ?_, fun c bv h1 h2 => ?_,
    fun c b h1 h2 h3 => ?_, fun c bv h1 h2 h3 => ?_, fun c b h1 h2 => ?_,
    fun c bv h1 h2 => ?_, by decide⟩
  · simp only [score_kidney]
    rw [if_pos h1]
    cases b with
    | none => rfl
    | some bv => dsimp only; rw [if_neg (not_lt.2 (h2 bv rfl))]
  · simp only [score_kidney]
    rw [if_pos h1, if_pos h2]
    decide
  · simp only [score_kidney]
    rw [if_neg (not_le.2 h1), if_pos h2]
    cases b with
    | none => rfl
    | some bv => dsimp only; rw [if_neg (not_lt.2 (h3 bv rfl))]
  · simp only [score_kidney]
    rw [if_neg (not_le.2 h1), if_pos h2, if_pos h3]
    decide
  · simp only [score_kidney]
    rw [if_neg (not_le.2 h1), if_neg (not_le.2 (by linarith))]
    cases b with
    | none => rfl
    | some bv => dsimp only; rw [if_neg (not_lt.2 (h2 bv rfl))]
  · simp only [score_kidney]
    rw [if_neg (not_le.2 (by linarith)), if_neg (not_le.2 h1), if_pos h2]
    decide

/-- Witness for C8 at concrete inputs. -/
theorem kidney_scorer_spec_witness :
    score_kidney (some 1.0) (some 30) =
      (90, "good", "Creatinine is within the expected range.") ∧
    score_kidney (some 1.5) (some 40) =
      (64, "needs-attention", "Creatinine is mildly elevated.") ∧
    score_kidney (some 2.5) (some 40) =
      (42, "high-risk", "Creatinine is significantly elevated.") ∧
    score_kidney none (some 99) = (50, "unknown", "No recent kidney markers.") :=
  ⟨kidney_scorer_spec.2.1 1.0 (some 30) (by norm_num)
     (fun bv h => by cases h; norm_num),
   kidney_scorer_spec.2.2.2.2.1 1.5 40 (by norm_num) (by norm_num) (by norm_num),
   kidney_scorer_spec.2.2.2.2.2.2.1 2.5 40 (by norm_num) (by norm_num),
   kidney_scorer_spec.1 (some 99)⟩

/-- Outpatient history with no rows for any metric. -/
def empty_omr : OmrHistory := ⟨[], [], [], []⟩

/-- Lab history with no rows for any metric. -/
def empty_labs : LabsHistory := ⟨[], [], [], [], [], [], [], [], []⟩

/-- Vital history with no rows for any metric. -/
def empty_vitals : VitalsHistory := ⟨[], [], [], [], []⟩

/-- C5: on histories with no samples for any metric the readout builder
still returns a well-formed complete scorecard: exactly six cards, each
scoring 50 with status unknown, an overall score of 50, an empty insights
list, and all availability flags false (the model is a total function, so
no exception is possible). -/
theorem readout_all_empty (sid : ℤ) :
    (build_readout sid empty_omr empty_labs empty_vitals).cards.length = 6 ∧
    (build_readout sid empty_omr empty_labs empty_vitals).cards.map
      (fun c => (c.score, c.status)) = List.replicate 6 ((50 : ℤ), "unknown") ∧
    (build_readout sid empty_omr empty_labs empty_vitals).overall_score = 50 ∧
    (build_readout sid empty_omr empty_labs empty_vitals).insights = [] ∧
    (build_readout sid empty_omr empty_labs empty_vitals).available_data =
      [("has_omr", false), ("has_labs", false), ("has_icu_vitals", false)] :=
  ⟨rfl, rfl, rfl, rfl, rfl⟩

/-- C3 counterexample: the readout dict has no field named availability
(its availability flags live under available_data), and the flag keys at a
concrete input are has_omr, has_labs, has_icu_vitals, with no key named
has_outpatient. -/
theorem availability_names_counterexample :
    "availability" ∉ readout_field_names ∧
    (build_readout 0 empty_omr empty_labs empty_vitals).available_data.map
      Prod.fst = ["has_omr", "has_labs", "has_icu_vitals"] ∧
    "has_outpatient" ∉ ((build_readout 0 empty_omr empty_labs
      empty_vitals).available_data.map Prod.fst) := by
  refine ⟨by decide, rfl, by decide⟩

/-- C3 (amended): for every input, the readout reproduces the field names
of the code verbatim: the data-availability flags are a field named
available_data containing boolean fields named has_omr, has_labs and
has_icu_vitals, in that order, and available_data is among the readout's
top-level field names. -/
theorem available_data_field_names (sid : ℤ) (omr : OmrHistory)
    (labs : LabsHistory) (vitals : VitalsHistory) :
    (build_readout sid omr labs vitals).available_data.map Prod.fst =
      ["has_omr", "has_labs", "has_icu_vitals"] ∧
    "available_data" ∈ readout_field_names :=
  ⟨rfl, by decide⟩

/-- C10: the body-composition card derives BMI from weight and height only
when the direct BMI is absent, the weight is present, and a positive
height is present; a zero or negative height leaves the BMI null (no
division is reached), and a null BMI scores 50 with status unknown. -/
theorem bmi_derivation_guard (sid : ℤ) (omr : OmrHistory)
    (labs : LabsHistory) (vitals : VitalsHistory) :
    (build_readout sid omr labs vitals).cards[1]? = some (body_card omr) ∧
    (∀ v, bmi_direct omr = some v → bmi_value omr = some v) ∧
    (bmi_direct omr = none →
      (∀ w h, weight_val omr = some w → height_val omr = some h →
        bmi_value omr = if 0 < h then some (w * 703.0 / (h * h)) else none) ∧
      (weight_val omr = none ∨ height_val omr = none → bmi_value omr = none)) ∧
    (bmi_value omr = none →
      (body_card omr).score = 50 ∧ (body_card omr).status = "unknown") := by
  refine ⟨rfl, fun v hv => ?_, fun hb => ⟨fun w h hw hh => ?_, fun hwh => ?_⟩,
    fun hnone => ?_⟩
  · simp only [bmi_value, hv]
  · simp only [bmi_value, hb, hw, hh]
  · rcases hwh with hw | hh
    · simp only [bmi_value, hb, hw]
    · simp only [bmi_value, hb, hh]
      rcases weight_val omr with _ | w <;> rfl
  · have e1 : (body_card omr).score = (score_bmi (bmi_value omr)).1 := rfl
    have e2 : (body_card omr).status = (score_bmi (bmi_value omr)).2.1 := rfl
    rw [e1, e2, hnone]
    exact ⟨rfl, rfl⟩

/-- Outpatient history with a weight of 150 pounds and a recorded height
of zero inches (and no direct BMI value). -/
def omr_zero_height : OmrHistory :=
  ⟨[], [], [⟨"150", "2150-01-01"⟩], [⟨"0", "2150-01-01"⟩]⟩

/-- Witness for C10: with weight present and height zero, the BMI stays
null and the body-composition card is 50 unknown. -/
theorem bmi_derivation_guard_witness :
    bmi_value omr_zero_height = none ∧
    ((body_card omr_zero_height).score = 50 ∧
      (body_card omr_zero_height).status = "unknown") :=
  ⟨by decide,
   (bmi_derivation_guard 0 omr_zero_height empty_labs empty_vitals).2.2.2
     (by decide)⟩

/-- Every blood-pressure score lies in the 0..100 band. -/
theorem score_bp_range (s d : Option ℚ) :
    0 ≤ (score_bp s d).1 ∧ (score_bp s d).1 ≤ 100 := by
  cases s <;> cases d <;> simp only [score_bp] <;> (try split_ifs) <;> decide

/-- Every body-composition score lies in the 0..100 band. -/
theorem score_bmi_range (b : Option ℚ) :
    0 ≤ (score_bmi b).1 ∧ (score_bmi b).1 ≤ 100 := by
  cases b <;> simp only [score_bmi] <;> (try split_ifs) <;> decide

/-- Every glucose score lies in the 0..100 band. -/
theorem score_glucose_range (a g : Option ℚ) :
    0 ≤ (score_glucose a g).1 ∧ (score_glucose a g).1 ≤ 100 := by
  cases a <;> cases g <;> simp only [score_glucose] <;> (try split_ifs) <;> decide

/-- Every kidney score lies in the 0..100 band. -/
theorem score_kidney_range (c b : Option ℚ) :
    0 ≤ (score_kidney c b).1 ∧ (score_kidney c b).1 ≤ 100 := by
  cases c <;> cases b <;> simp only [score_kidney] <;> (try split_ifs) <;> decide

/-- Every oxygenation score lies in the 0..100 band. -/
theorem score_spo2_range (s : Option ℚ) :
    0 ≤ (score_spo2 s).1 ∧ (score_spo2 s).1 ≤ 100 := by
  cases s <;> simp only [score_spo2] <;> (try split_ifs) <;> decide

set_option maxHeartbeats 2000000 in
/-- Every hematology score lies in the 0..100 band. -/
theorem heme_range (h w p : Option ℚ) :
    0 ≤ (hematology_component_scores h w p).1 ∧
      (hematology_component_scores h w p).1 ≤ 100 := by
  cases h <;> cases w <;> cases p <;>
    simp only [hematology_component_scores, hematology_components] <;>
    (try split_ifs) <;> decide

/-- Rounding half to even keeps integer bounds. -/
theorem round_half_even_bounds {lo hi : ℤ} {q : ℚ} (h1 : (lo : ℚ) ≤ q)
    (h2 : q ≤ (hi : ℚ)) :
    lo ≤ round_half_even q ∧ round_half_even q ≤ hi := by
  have hf1 : lo ≤ ⌊q⌋ := Int.le_floor.2 h1
  have hf2 : ⌊q⌋ ≤ hi := by
    have : (⌊q⌋ : ℚ) ≤ (hi : ℚ) := le_trans (Int.floor_le q) h2
    exact_mod_cast this
  have hstep : ¬(q - ⌊q⌋ < 1/2) → ⌊q⌋ + 1 ≤ hi := by
    intro hge
    have hq : (⌊q⌋ : ℚ) + 1/2 ≤ q := by
      have := not_lt.1 hge
      linarith
    have : (⌊q⌋ : ℚ) < (hi : ℚ) := by linarith
    have : ⌊q⌋ < hi := by exact_mod_cast this
    omega
  unfold round_half_even
  split_ifs with c1 c2 c3
  · exact ⟨hf1, hf2⟩
  · exact ⟨by omega, hstep c1⟩
  · exact ⟨hf1, hf2⟩
  · exact ⟨by omega, hstep c1⟩

/-- Mean of a nonempty list respects elementwise bounds. -/
theorem list_mean_bounds {lo hi : ℚ} {xs : List ℚ} (hne : xs ≠ [])
    (h : ∀ x ∈ xs, lo ≤ x ∧ x ≤ hi) :
    lo ≤ list_mean xs ∧ list_mean xs ≤ hi := by
  have hlen : 0 < (xs.length : ℚ) := by
    have := List.length_pos.2 hne
    exact_mod_cast this
  have hsum_lo : (xs.length : ℚ) * lo ≤ xs.sum := by
    have := List.card_nsmul_le_sum xs lo (fun x hx => (h x hx).1)
    simpa [nsmul_eq_mul] using this
  have hsum_hi : xs.sum ≤ (xs.length : ℚ) * hi := by
    have := List.sum_le_card_nsmul xs hi (fun x hx => (h x hx).2)
    simpa [nsmul_eq_mul] using this
  constructor
  · rw [list_mean, le_div_iff₀ hlen]
    linarith
  · rw [list_mean, div_le_iff₀ hlen]
    linarith

/-- C6: for all inputs every card score of the readout lies in 0..100 and
so does the overall score; and each domain scorer, given no qualifying
sample, returns score 50 with status unknown. -/
theorem score_bounds (sid : ℤ) (omr : OmrHistory) (labs : LabsHistory)
    (vitals : VitalsHistory) :
    (∀ c ∈ (build_readout sid omr labs vitals).cards,
      0 ≤ c.score ∧ c.score ≤ 100) ∧
    (0 ≤ (build_readout sid omr labs vitals).overall_score ∧
      (build_readout sid omr labs vitals).overall_score ≤ 100) ∧
    (∀ d, score_bp none d = (50, "unknown", "No recent blood pressure data.")) ∧
    (∀ s, score_bp s none = (50, "unknown", "No recent blood pressure data.")) ∧
    score_bmi none = (50, "unknown", "No recent BMI data.") ∧
    ((score_glucose none none).1 = 50 ∧ (score_glucose none none).2.1 = "unknown") ∧
    (∀ b, score_kidney none b = (50, "unknown", "No recent kidney markers.")) ∧
    score_spo2 none = (50, "unknown", "No recent oxygen saturation values.") ∧
    hematology_component_scores none none none =
      (50, "unknown", "No recent hematology markers.") := by
  have hcards : ∀ c ∈ (build_readout sid omr labs vitals).cards,
      0 ≤ c.score ∧ c.score ≤ 100 := by
    intro c hc
    simp only [build_readout, List.mem_cons, List.not_mem_nil, or_false] at hc
    rcases hc with rfl | rfl | rfl | rfl | rfl | rfl
    · exact score_bp_range _ _
    · exact score_bmi_range _
    · exact score_glucose_range _ _
    · exact score_kidney_range _ _
    · exact score_spo2_range _
    · exact heme_range _ _ _
  refine ⟨hcards, ?_, fun d => rfl, fun s => by cases s <;> rfl, rfl,
    ⟨rfl, rfl⟩, fun b => rfl, rfl, rfl⟩
  have e : (build_readout sid omr labs vitals).overall_score =
      round_half_even (list_mean ((build_readout sid omr labs
        vitals).cards.map fun c => (c.score : ℚ))) := rfl
  have hne : (build_readout sid omr labs vitals).cards.map
      (fun c => (c.score : ℚ)) ≠ [] := by
    have : ((build_readout sid omr labs vitals).cards.map
        (fun c => (c.score : ℚ))).length = 6 := rfl
    intro hcontra
    rw [hcontra] at this
    exact absurd this (by decide)
  have hbound : ∀ x ∈ (build_readout sid omr labs vitals).cards.map
      (fun c => (c.score : ℚ)), (0 : ℚ) ≤ x ∧ x ≤ 100 := by
    intro x hx
    rcases List.mem_map.1 hx with ⟨c, hc, rfl⟩
    have hb := hcards c hc
    exact ⟨by exact_mod_cast hb.1, by exact_mod_cast hb.2⟩
  have hm := list_mean_bounds hne hbound
  rw [e]
  exact @round_half_even_bounds 0 100 _
    (by exact_mod_cast hm.1) (by exact_mod_cast hm.2)

/-- Witness for C6 at a concrete input. -/
theorem score_bounds_witness :
    0 ≤ (bp_card empty_omr empty_vitals).score ∧
      (bp_card empty_omr empty_vitals).score ≤ 100 :=
  (score_bounds 0 empty_omr empty_labs empty_vitals).1
    (bp_card empty_omr empty_vitals) (by decide)

/-- C1: the readout always carries exactly six domain cards; the overall
score is the round-half-to-even of the arithmetic mean of the six card
scores; the overall status follows the fixed thresholds (at least 85 good,
at least 65 needs-attention, otherwise high-risk); and whenever every card
scores 50 (in particular the all-unknown case) the overall score is 50. -/
theorem readout_overall_spec (sid : ℤ) (omr : OmrHistory)
    (labs : LabsHistory) (vitals : VitalsHistory) :
    (build_readout sid omr labs vitals).cards.length = 6 ∧
    (build_readout sid omr labs vitals).overall_score =
      round_half_even (((build_readout sid omr labs vitals).cards.map
        (fun c => (c.score : ℚ))).sum / 6) ∧
    ((build_readout sid omr labs vitals).overall_status =
      if (build_readout sid omr labs vitals).overall_score ≥ 85 then "good"
      else if (build_readout sid omr labs vitals).overall_score ≥ 65 then
        "needs-attention"
      else "high-risk") ∧
    ((∀ c ∈ (build_readout sid omr labs vitals).cards, c.score = 50) →
      (build_readout sid omr labs vitals).overall_score = 50) := by
  have e : (build_readout sid omr labs vitals).overall_score =
      round_half_even (list_mean ((build_readout sid omr labs
        vitals).cards.map fun c => (c.score : ℚ))) := rfl
  have elen : ((build_readout sid omr labs vitals).cards.map
      (fun c => (c.score : ℚ))).length = 6 := rfl
  refine ⟨rfl, ?_, rfl, ?_⟩
  · rw [e, list_mean, elen]
    norm_num
  · intro h
    have h1 := h (bp_card omr vitals) (by
      simp [build_readout, List.mem_cons])
    have h2 := h (body_card omr) (by
      simp [build_readout, List.mem_cons])
    have h3 := h (glucose_card labs) (by
      simp [build_readout, List.mem_cons])
    have h4 := h (kidney_card labs) (by
      simp [build_readout, List.mem_cons])
    have h5 := h (spo2_card vitals) (by
      simp [build_readout, List.mem_cons])
    have h6 := h (heme_card labs) (by
      simp [build_readout, List.mem_cons])
    have emap : (build_readout sid omr labs vitals).cards.map
        (fun c => (c.score : ℚ)) = [((bp_card omr vitals).score : ℚ),
          ((body_card omr).score : ℚ), ((glucose_card labs).score : ℚ),
          ((kidney_card labs).score : ℚ), ((spo2_card vitals).score : ℚ),
          ((heme_card labs).score : ℚ)] := rfl
    rw [e, emap, h1, h2, h3, h4, h5, h6]
    decide

/-- Witness for C1: at the all-empty input every card scores 50 and the
overall score is 50. -/
theorem readout_overall_spec_witness :
    (build_readout 0 empty_omr empty_labs empty_vitals).overall_score = 50 :=
  (readout_overall_spec 0 empty_omr empty_labs empty_vitals).2.2.2 (by decide)

/-- Every blood-pressure insight string is nonempty. -/
theorem score_bp_insight_ne (s d : Option ℚ) : (score_bp s d).2.2 ≠ "" := by
  cases s <;> cases d <;> simp only [score_bp] <;> (try split_ifs) <;> decide

/-- Every body-composition insight string is nonempty. -/
theorem score_bmi_insight_ne (b : Option ℚ) : (score_bmi b).2.2 ≠ "" := by
  cases b <;> simp only [score_bmi] <;> (try split_ifs) <;> decide

/-- Every glucose insight string is nonempty. -/
theorem score_glucose_insight_ne (a g : Option ℚ) :
    (score_glucose a g).2.2.1 ≠ "" := by
  cases a <;> cases g <;> simp only [score_glucose] <;> (try split_ifs) <;> decide

/-- Every kidney insight string is nonempty. -/
theorem score_kidney_insight_ne (c b : Option ℚ) :
    (score_kidney c b).2.2 ≠ "" := by
  cases c <;> cases b <;> simp only [score_kidney] <;> (try split_ifs) <;> decide

/-- Every oxygenation insight string is nonempty. -/
theorem score_spo2_insight_ne (s : Option ℚ) : (score_spo2 s).2.2 ≠ "" := by
  cases s <;> simp only [score_spo2] <;> (try split_ifs) <;> decide

set_option maxHeartbeats 2000000 in
/-- Every hematology insight string is nonempty. -/
theorem heme_insight_ne (h w p : Option ℚ) :
    (hematology_component_scores h w p).2.2 ≠ "" := by
  cases h <;> cases w <;> cases p <;>
    simp only [hematology_component_scores, hematology_components] <;>
    (try split_ifs) <;> first | decide | simp_all

/-- Membership in a stable insertion is membership in the parts. -/
theorem mem_insert_by_score {a c : Card} {l : List Card} :
    a ∈ insert_by_score c l ↔ a = c ∨ a ∈ l := by
  induction l with
  | nil => simp [insert_by_score]
  | cons d ds ih =>
    simp only [insert_by_score]
    split_ifs
    · simp only [List.mem_cons, ih]
      tauto
    · simp [List.mem_cons]

/-- The stable sort by score is a permutation membership-wise. -/
theorem mem_stable_sort {a : Card} {l : List Card} :
    a ∈ stable_sort_by_score l ↔ a ∈ l := by
  induction l with
  | nil => simp [stable_sort_by_score]
  | cons c cs ih =>
    simp only [stable_sort_by_score, List.foldr] at ih ⊢
    rw [mem_insert_by_score, List.mem_cons, ih]

/-- Filtering an insertion to one score value keeps the inserted card in
front of the equal-scored cards already present. -/
theorem insert_by_score_filter (c : Card) (l : List Card) (k : ℤ) :
    (insert_by_score c l).filter (fun d => d.score = k) =
      if c.score = k then c :: l.filter (fun d => d.score = k)
      else l.filter (fun d => d.score = k) := by
  induction l with
  | nil => by_cases hck : c.score = k <;> simp [insert_by_score, hck]
  | cons d ds ih =>
    simp only [insert_by_score]
    by_cases hlt : d.score < c.score
    · rw [if_pos hlt]
      by_cases hdk : d.score = k
      · by_cases hck : c.score = k
        · rw [hdk, hck] at hlt
          exact absurd hlt (lt_irrefl k)
        · simp [List.filter_cons, hdk, hck, ih]
      · by_cases hck : c.score = k <;> simp [List.filter_cons, hdk, hck, ih]
    · rw [if_neg hlt]
      by_cases hck : c.score = k <;> simp [List.filter_cons, hck]

/-- Stability of the sort: restricted to the cards of any one score value,
the sorted list keeps the original order (the characterisation of a stable
sort, matching Python's stable list.sort in health.py line 885). -/
theorem stable_sort_by_score_filter (l : List Card) (k : ℤ) :
    (stable_sort_by_score l).filter (fun d => d.score = k) =
      l.filter (fun d => d.score = k) := by
  induction l with
  | nil => rfl
  | cons c cs ih =>
    simp only [stable_sort_by_score, List.foldr] at ih ⊢
    rw [insert_by_score_filter, List.filter_cons]
    by_cases hck : c.score = k
    · simp [hck, ih]
    · simp [hck, ih]

/-- Inserting into a score-sorted list keeps it score-sorted. -/
theorem insert_by_score_pairwise {c : Card} {l : List Card}
    (h : l.Pairwise (fun a b => a.score ≤ b.score)) :
    (insert_by_score c l).Pairwise (fun a b => a.score ≤ b.score) := by
  induction l with
  | nil => simp [insert_by_score]
  | cons d ds ih =>
    rcases List.pairwise_cons.1 h with ⟨hd, hds⟩
    simp only [insert_by_score]
    split_ifs with hlt
    · refine List.pairwise_cons.2 ⟨?_, ih hds⟩
      intro x hx
      rcases mem_insert_by_score.1 hx with rfl | hx2
      · exact le_of_lt hlt
      · exact hd x hx2
    · refine List.pairwise_cons.2 ⟨?_, h⟩
      intro x hx
      rcases List.mem_cons.1 hx with rfl | hx2
      · exact not_lt.1 hlt
      · exact le_trans (not_lt.1 hlt) (hd x hx2)

/-- The sort orders cards ascending by score. -/
theorem stable_sort_by_score_pairwise (l : List Card) :
    (stable_sort_by_score l).Pairwise (fun a b => a.score ≤ b.score) := by
  induction l with
  | nil => simp [stable_sort_by_score]
  | cons c cs ih => exact insert_by_score_pairwise ih

/-- Extracting insights with the nonemptiness guard is a plain map when no
insight is empty. -/
theorem insight_filterMap_eq_map {l : List Card} (h : ∀ c ∈ l, c.insight ≠ "") :
    (l.filterMap fun c => if c.insight = "" then none else some c.insight) =
      l.map (fun c => c.insight) := by
  induction l with
  | nil => rfl
  | cons c cs ih =>
    have hc : (if c.insight = "" then none else some c.insight) =
        some c.insight := if_neg (h c (List.mem_cons_self c cs))
    simp only [List.filterMap_cons, hc, List.map_cons]
    rw [ih fun x hx => h x (List.mem_cons_of_mem c hx)]

/-- Definition following the specification's words for the concern list:
filter the cards to status needs-attention or high-risk, stable-sort them
ascending by score, then take the first four nonempty insight strings. -/
def spec_insights (cards : List Card) : List String :=
  (((stable_sort_by_score (cards.filter fun c =>
      c.status = "needs-attention" ∨ c.status = "high-risk")).map
    (fun c => c.insight)).filter (fun s => s ≠ "")).take 4

/-- The concern-list computation of _build_readout agrees with the
specification's filter-sort-take-nonempty description whenever no card
carries an empty insight. -/
theorem insights_formula (cards : List Card)
    (h : ∀ c ∈ cards, c.insight ≠ "") :
    ((stable_sort_by_score (cards.filter fun c =>
        c.status = "needs-attention" ∨ c.status = "high-risk")).take
      4).filterMap (fun c => if c.insight = "" then none else some c.insight) =
      spec_insights cards := by
  have hsorted : ∀ c ∈ stable_sort_by_score (cards.filter fun c =>
      c.status = "needs-attention" ∨ c.status = "high-risk"), c.insight ≠ "" := by
    intro c hc
    exact h c (List.mem_of_mem_filter (mem_stable_sort.1 hc))
  have htake : ∀ c ∈ (stable_sort_by_score (cards.filter fun c =>
      c.status = "needs-attention" ∨ c.status = "high-risk")).take 4,
      c.insight ≠ "" := by
    intro c hc
    exact hsorted c (List.take_subset 4 _ hc)
  have hfilter : (((stable_sort_by_score (cards.filter fun c =>
      c.status = "needs-attention" ∨ c.status = "high-risk")).map
        (fun c => c.insight)).filter (fun s => s ≠ "")) =
      ((stable_sort_by_score (cards.filter fun c =>
        c.status = "needs-attention" ∨ c.status = "high-risk")).map
          (fun c => c.insight)) := by
    refine List.filter_eq_self.2 ?_
    intro s hs
    rcases List.mem_map.1 hs with ⟨c, hc, rfl⟩
    simpa using hsorted c hc
  rw [insight_filterMap_eq_map htake, spec_insights, hfilter, ← List.map_take]

/-- C4: the insights list of every readout equals the specification's
description (first four nonempty insight strings of the concern cards
stable-sorted ascending by score); it never has more than four entries;
and every entry is the insight of a card whose status is needs-attention
or high-risk (so never of a good or unknown card). -/
theorem readout_insights_spec (sid : ℤ) (omr : OmrHistory)
    (labs : LabsHistory) (vitals : VitalsHistory) :
    (build_readout sid omr labs vitals).insights =
      spec_insights (build_readout sid omr labs vitals).cards ∧
    (build_readout sid omr labs vitals).insights.length ≤ 4 ∧
    (∀ s ∈ (build_readout sid omr labs vitals).insights,
      ∃ c, c ∈ (build_readout sid omr labs vitals).cards ∧
        (c.status = "needs-attention" ∨ c.status = "high-risk") ∧
        c.insight = s) := by
  have hins : ∀ c ∈ (build_readout sid omr labs vitals).cards,
      c.insight ≠ "" := by
    intro c hc
    simp only [build_readout, List.mem_cons, List.not_mem_nil, or_false] at hc
    rcases hc with rfl | rfl | rfl | rfl | rfl | rfl
    · exact score_bp_insight_ne _ _
    · exact score_bmi_insight_ne _
    · exact score_glucose_insight_ne _ _
    · exact score_kidney_insight_ne _ _
    · exact score_spo2_insight_ne _
    · exact heme_insight_ne _ _ _
  have e : (build_readout sid omr labs vitals).insights =
      ((stable_sort_by_score ((build_readout sid omr labs
        vitals).cards.filter fun c => c.status = "needs-attention" ∨
        c.status = "high-risk")).take 4).filterMap
      (fun c => if c.insight = "" then none else some c.insight) := rfl
  refine ⟨?_, ?_, ?_⟩
  · rw [e]
    exact insights_formula _ hins
  · rw [e]
    refine le_trans (List.length_filterMap_le _ _) ?_
    rw [List.length_take]
    exact min_le_left _ _
  · intro s hs
    rw [e] at hs
    rcases List.mem_filterMap.1 hs with ⟨c, hc, heq⟩
    have hcs : c ∈ stable_sort_by_score ((build_readout sid omr labs
        vitals).cards.filter fun c => c.status = "needs-attention" ∨
        c.status = "high-risk") := List.take_subset 4 _ hc
    have hcf := mem_stable_sort.1 hcs
    have hmem := List.mem_of_mem_filter hcf
    have hstat : c.status = "needs-attention" ∨ c.status = "high-risk" := by
      have := List.of_mem_filter hcf
      simpa using this
    refine ⟨c, hmem, hstat, ?_⟩
    by_cases hblank : c.insight = ""
    · rw [if_pos hblank] at heq
      exact absurd heq (by simp)
    · rw [if_neg hblank] at heq
      exact Option.some_injective _ heq

/-- Lab history whose only rows are a creatinine of 2.5 (high-risk for the
kidney scorer). -/
def labs_kidney_high : LabsHistory :=
  ⟨[⟨2.5, "2150-01-01"⟩], [], [], [], [], [], [], [], []⟩

/-- Outpatient history with a single blood-pressure reading of 135/85
(stage-1, score 70 needs-attention). -/
def omr_bp_stage1 : OmrHistory := ⟨[⟨"135/85", "2150-01-01"⟩], [], [], []⟩

/-- Vital history with a single SpO2 value of 92 (score 70
needs-attention, tying the stage-1 blood-pressure card). -/
def vitals_spo2_92 : VitalsHistory := ⟨[], [], [], [], [⟨92, "2150-01-01"⟩]⟩

/-- Witness for C4: at a concrete input whose kidney card is high-risk,
the insight in the list is the insight of a concern card; and on an input
with two score-70 concern cards the insights keep the original card order
(blood pressure before oxygenation), the stable tie-break, and equal the
specification-side formula. -/
theorem readout_insights_spec_witness :
    (∃ c, c ∈ (build_readout 1 empty_omr labs_kidney_high
        empty_vitals).cards ∧
      (c.status = "needs-attention" ∨ c.status = "high-risk") ∧
      c.insight = "Creatinine is significantly elevated.") ∧
    (build_readout 2 omr_bp_stage1 empty_labs vitals_spo2_92).insights =
      ["Blood pressure is in stage-1 range.",
       "Oxygen saturation is mildly low."] ∧
    (build_readout 2 omr_bp_stage1 empty_labs vitals_spo2_92).insights =
      spec_insights (build_readout 2 omr_bp_stage1 empty_labs
        vitals_spo2_92).cards :=
  ⟨(readout_insights_spec 1 empty_omr labs_kidney_high empty_vitals).2.2
     "Creatinine is significantly elevated." (by decide),
   by decide,
   (readout_insights_spec 2 omr_bp_stage1 empty_labs vitals_spo2_92).1⟩

/-- Witness for C5 at subject 0. -/
theorem readout_all_empty_witness :
    (build_readout 0 empty_omr empty_labs empty_vitals).overall_score = 50 ∧
    (build_readout 0 empty_omr empty_labs empty_vitals).insights = [] :=
  ⟨(readout_all_empty 0).2.2.1, (readout_all_empty 0).2.2.2.1⟩

/-- Witness for the amended C3 at a concrete input. -/
theorem available_data_field_names_witness :
    (build_readout 0 empty_omr empty_labs empty_vitals).available_data.map
      Prod.fst = ["has_omr", "has_labs", "has_icu_vitals"] :=
  (available_data_field_names 0 empty_omr empty_labs empty_vitals).1
